import Mathlib

/-!
Shallow embedding of the nvsleepify daemon core (src/protocol.rs,
src/system.rs, src/pci.rs, src/daemon.rs) and proofs about the
specification's claims.

File systems and subprocess results are passed explicitly: a sysfs file is
an optional string (absent or its content), a fallible effector call is an
optional error message (none meaning success), and the side effects a
function performs are collected in an ordered trace.
-/

namespace NvSleepify

/-! ### String helpers modelling the Rust standard library calls -/

/-- ASCII model of the to_lowercase call in Mode::from_str. -/
def asciiLowercase (s : String) : String :=
  ⟨s.data.map Char.toLower⟩

/-- Whitespace test used by the trim model. -/
def isRustWhitespace (c : Char) : Bool :=
  c = ' ' || c = '\t' || c = '\n' || c = '\r'

/-- Model of str::trim: drop whitespace from both ends. -/
def strTrim (s : String) : String :=
  ⟨((s.data.dropWhile isRustWhitespace).reverse.dropWhile
      isRustWhitespace).reverse⟩

/-! ### protocol.rs: the Mode enum, its Display and FromStr impls -/

/-- Policy mode, src/protocol.rs. Standard keeps the GPU awake, Integrated
keeps it asleep, Optimized follows the charger. -/
inductive Mode where
  | Standard
  | Integrated
  | Optimized
deriving DecidableEq, Repr

/-- Display impl of Mode: writes the capitalized variant name. -/
def Mode.toString : Mode → String
  | .Standard => "Standard"
  | .Integrated => "Integrated"
  | .Optimized => "Optimized"

/-- FromStr impl of Mode: lowercases the input and matches the tags and
their aliases; anything else is an error whose message echoes the
original, non-lowercased input string. -/
def Mode.from_str (s : String) : Except String Mode :=
  match asciiLowercase s with
  | "standard" | "std" | "off" => .ok .Standard
  | "integrated" | "int" | "on" => .ok .Integrated
  | "optimized" | "opt" | "auto" => .ok .Optimized
  | _ => .error ("Unknown mode: " ++ s)

/-! ### system.rs: charging status -/

/-- Contents of the three candidate online files, in the order the code
tries them; none models an absent (or unreadable) file. -/
structure PowerSupplyFs where
  acad : Option String
  ac : Option String
  adp1 : Option String

/-- Loop body of get_charging_status: return on the first candidate whose
read succeeds, comparing the trimmed content with "1". -/
def charging_of_candidates : List (Option String) → Bool
  | [] => true
  | some content :: _ => strTrim content == "1"
  | none :: rest => charging_of_candidates rest

/-- get_charging_status, src/system.rs: try ACAD, AC, ADP1 in order;
fall back to true when none is readable. -/
def get_charging_status (fs : PowerSupplyFs) : Bool :=
  charging_of_candidates [fs.acad, fs.ac, fs.adp1]

/-! ### system.rs: systemctl service management -/

/-- One systemctl invocation: the action and the unit it is applied to. -/
structure SysCall where
  action : String
  service : String
deriving DecidableEq, Repr

/-- run_systemctl, src/system.rs: run the call; a failed exit status is
turned into a warning line, never into an error. The status of each call is
supplied by the environment. -/
def run_systemctl (status : SysCall → Bool) (action service : String) :
    SysCall × List String :=
  let c : SysCall := ⟨action, service⟩
  (c, if status c then [] else
    ["WARN: Failed to " ++ action ++ " " ++ service])

/-- Helper for the loops in stop_services and start_services: apply one
action to every unit of a list, collecting calls and warnings in order. -/
def run_systemctl_all (status : SysCall → Bool) (action : String)
    (services : List String) : List SysCall × List String :=
  match services with
  | [] => ([], [])
  | svc :: rest =>
    let r := run_systemctl status action svc
    let rs := run_systemctl_all status action rest
    (r.1 :: rs.1, r.2 ++ rs.2)

/-- stop_services, src/system.rs: stop nvidia-persistenced and
nvidia-powerd, disable the five .service units, then stop and mask
nvidia-fallback.service; always returns Ok. -/
def stop_services (status : SysCall → Bool) :
    List SysCall × List String × Except String Unit :=
  let stops := run_systemctl_all status "stop"
    ["nvidia-persistenced", "nvidia-powerd"]
  let disables := run_systemctl_all status "disable"
    ["nvidia-suspend.service", "nvidia-hibernate.service",
     "nvidia-resume.service", "nvidia-persistenced.service",
     "nvidia-powerd.service"]
  let fb1 := run_systemctl status "stop" "nvidia-fallback.service"
  let fb2 := run_systemctl status "mask" "nvidia-fallback.service"
  (stops.1 ++ disables.1 ++ [fb1.1, fb2.1],
   stops.2 ++ disables.2 ++ fb1.2 ++ fb2.2,
   .ok ())

/-- start_services, src/system.rs: unmask nvidia-fallback.service, start
nvidia-persistenced and nvidia-powerd, enable the five .service units;
always returns Ok. -/
def start_services (status : SysCall → Bool) :
    List SysCall × List String × Except String Unit :=
  let fb := run_systemctl status "unmask" "nvidia-fallback.service"
  let starts := run_systemctl_all status "start"
    ["nvidia-persistenced", "nvidia-powerd"]
  let enables := run_systemctl_all status "enable"
    ["nvidia-suspend.service", "nvidia-hibernate.service",
     "nvidia-resume.service", "nvidia-persistenced.service",
     "nvidia-powerd.service"]
  (fb.1 :: starts.1 ++ enables.1,
   fb.2 ++ starts.2 ++ enables.2,
   .ok ())

/-! ### daemon.rs: persisted state file -/

/-- Possible situations of the state file on disk. -/
inductive FsFile where
  | absent
  | unreadable (e : String)
  | content (s : String)
deriving DecidableEq, Repr

/-- Persisted daemon state: the content of /var/lib/nvsleepify/state. -/
structure DaemonState where
  stateFile : FsFile
deriving DecidableEq, Repr

/-- save_state, src/daemon.rs: write "on" or "off"; the environment says
whether the write succeeds. A failed write leaves the file unchanged. -/
def save_state (writeResult : Option String) (st : DaemonState)
    (sleep_enabled : Bool) : DaemonState × Except String Unit :=
  match writeResult with
  | some e => (st, .error e)
  | none =>
    (⟨.content (if sleep_enabled then "on" else "off")⟩, .ok ())

/-- load_state, src/daemon.rs: true exactly when the file reads
successfully and its trimmed content is "on"; any failure gives false. -/
def load_state (f : FsFile) : Bool :=
  match f with
  | .content s => strTrim s == "on"
  | _ => false

/-! ### daemon.rs: the power-transition engine -/

/-- Side effects the engine performs, in the order it performs them.
A failed state write has no observable effect and is not recorded; a
failed subprocess or sysfs step still ran and is recorded. -/
inductive Effect where
  | killProcs (procs : List (String × String))
  | waitMs (ms : Nat)
  | saveState (sleep_enabled : Bool)
  | stopServices
  | unloadModules
  | unbindDriver
  | setSlotPower (power : Bool)
  | slotPowerWrite (slot : String)
  | rescan
  | loadModules
  | startServices
deriving DecidableEq, Repr

/-- The located Nvidia GPU as the engine sees it: its device nodes and the
outcomes of its two sysfs operations (none meaning success). -/
structure Gpu where
  address : String
  nodes : List String
  unbindResult : Option String
  slotPowerOffResult : Option String

/-- Results of the calls sleep_logic makes, supplied by the environment.
gpu is the result of PciDevice::find_nvidia_gpu (none when the scan found
no Nvidia display device); procsResult is get_processes_using_nvidia. -/
structure SleepEnv where
  gpu : Option Gpu
  procsResult : Except String (List (String × String))
  killResult : Option String
  saveStateResult : Option String
  stopServicesResult : Option String
  unloadResult : Option String

/-- Steps of sleep_logic after the blocking-process guard: persist "on",
then stop services, unload modules, unbind the driver, power the slot off,
aborting with a per-step message at the first error. -/
def sleep_steps (env : SleepEnv) (st : DaemonState) (gpu : Gpu)
    (pre : List Effect) :
    DaemonState × List Effect × (Bool × String × List (String × String)) :=
  match save_state env.saveStateResult st true with
  | (_, .error e) => (st, pre, (false, "Failed to save state: " ++ e, []))
  | (st1, .ok _) =>
    let tr1 := pre ++ [Effect.saveState true]
    match env.stopServicesResult with
    | some e =>
      (st1, tr1 ++ [.stopServices],
       (false, "Failed to stop services: " ++ e, []))
    | none =>
      let tr2 := tr1 ++ [Effect.stopServices]
      match env.unloadResult with
      | some e =>
        (st1, tr2 ++ [.unloadModules],
         (false, "Failed to unload modules: " ++ e, []))
      | none =>
        let tr3 := tr2 ++ [Effect.unloadModules]
        match gpu.unbindResult with
        | some e =>
          (st1, tr3 ++ [.unbindDriver],
           (false, "Failed to unbind driver: " ++ e, []))
        | none =>
          let tr4 := tr3 ++ [Effect.unbindDriver]
          match gpu.slotPowerOffResult with
          | some e =>
            (st1, tr4 ++ [.setSlotPower false],
             (false, "Failed to power off slot: " ++ e, []))
          | none =>
            (st1, tr4 ++ [.setSlotPower false], (true, "Success", []))

/-- sleep_logic, src/daemon.rs: find the GPU (absent means success), check
blocking processes (abort without killing when force is off), kill and
wait 500 ms when forcing, then run the ordered shutdown steps. -/
def sleep_logic (env : SleepEnv) (st : DaemonState) (kill_procs : Bool) :
    DaemonState × List Effect × (Bool × String × List (String × String)) :=
  match env.gpu with
  | none => (st, [], (true, "Nvidia GPU not found (already off?)", []))
  | some gpu =>
    match env.procsResult with
    | .error e =>
      (st, [], (false, "Failed checking processes: " ++ e, []))
    | .ok procs =>
      if procs.isEmpty then
        sleep_steps env st gpu []
      else if !kill_procs then
        (st, [], (false, "Blocking processes found", procs))
      else
        match env.killResult with
        | some e =>
          (st, [.killProcs procs],
           (false, "Failed to kill processes: " ++ e, []))
        | none =>
          sleep_steps env st gpu [.killProcs procs, .waitMs 500]

/-- Results of the calls wake_logic makes. slots maps each directory under
/sys/bus/pci/slots to the content of its power file (none when the file is
absent or unreadable). -/
structure WakeEnv where
  saveStateResult : Option String
  slots : List (String × Option String)
  loadModulesResult : Option String
  startServicesResult : Option String

/-- wake_logic, src/daemon.rs: persist "off" first (abort on failure with
nothing else done), write 1 to every slot power file reading 0, rescan the
bus, wait 1 s, load modules, start services. -/
def wake_logic (env : WakeEnv) (st : DaemonState) :
    DaemonState × List Effect × (Bool × String) :=
  match save_state env.saveStateResult st false with
  | (_, .error e) => (st, [], (false, "Failed to save state: " ++ e))
  | (st1, .ok _) =>
    let slotWrites := (env.slots.filter fun s =>
      match s.2 with
      | some c => strTrim c == "0"
      | none => false).map fun s => Effect.slotPowerWrite s.1
    let tr := Effect.saveState false :: slotWrites ++
      [Effect.rescan, Effect.waitMs 1000]
    match env.loadModulesResult with
    | some e =>
      (st1, tr ++ [.loadModules], (false, "Failed to load modules: " ++ e))
    | none =>
      match env.startServicesResult with
      | some e =>
        (st1, tr ++ [.loadModules, .startServices],
         (false, "Failed to start services: " ++ e))
      | none =>
        (st1, tr ++ [.loadModules, .startServices], (true, "Success"))

/-- Engine steps of the shutdown sequence of sleep_logic. -/
def isEngineStep : Effect → Bool
  | .stopServices => true
  | .unloadModules => true
  | .unbindDriver => true
  | .setSlotPower _ => true
  | _ => false

/-- Guard effects of sleep_logic, performed before the intent is
persisted. -/
def isGuardEffect : Effect → Bool
  | .killProcs _ => true
  | .waitMs _ => true
  | _ => false

/-- Effects that persist the intent or run the shutdown steps. -/
def isPersistOrStep : Effect → Bool
  | .saveState _ => true
  | e => isEngineStep e

/-! ### daemon.rs: startup restore -/

/-- Transition the startup restore dispatches to; recorded rather than
executed in this embedding. -/
inductive RestoreAction where
  | sleepForce
  | wake
deriving DecidableEq, Repr

/-- restore_logic, src/daemon.rs: do nothing when the state file does not
exist, propagate a read error, force-sleep when the trimmed content is
"on", wake otherwise. -/
def restore_logic (stateFile : FsFile) :
    Except String (List RestoreAction) :=
  match stateFile with
  | .absent => .ok []
  | .unreadable e => .error e
  | .content s =>
    if strTrim s == "on" then .ok [.sleepForce] else .ok [.wake]

/-! ### daemon.rs: the monitor loop -/

/-- Debounce state of the monitor loop: the last observed charging value
and the time (in whole seconds) it last changed. -/
structure MonitorState where
  last_charging : Bool
  stable_since : Nat
deriving DecidableEq, Repr

/-- Transitions the monitor loop can dispatch to during one tick. -/
inductive Transition where
  | wake
  | sleepSoft
  | sleepForce
deriving DecidableEq, Repr

/-- Observations and callee results of one monitor_loop tick: the
load_auto_state and get_charging_status reads, the environments of the
transition calls the tick may make, and the find_nvidia_gpu plus
get_power_state observation of the enforcement block (none when no GPU is
found). -/
structure MonitorEnv where
  auto_enabled : Bool
  current_charging : Bool
  sleepEnvSoft : SleepEnv
  sleepEnvForce : SleepEnv
  wakeEnv : WakeEnv
  gpuPower : Option String

/-- Auto-mode block of one monitor_loop tick, daemon.rs lines 74 to 109:
when charging changed, remember it and reset stable_since to now;
otherwise, once stable for at least 5 seconds, wake when charging and
sleep is enabled, or soft-sleep when unplugged and sleep is disabled. -/
def monitor_auto_block (env : MonitorEnv) (now : Nat) (ms : MonitorState)
    (st : DaemonState) : MonitorState × DaemonState × List Transition :=
  if env.auto_enabled then
    if env.current_charging != ms.last_charging then
      (⟨env.current_charging, now⟩, st, [])
    else if 5 ≤ now - ms.stable_since then
      if env.current_charging then
        if load_state st.stateFile then
          (ms, (wake_logic env.wakeEnv st).1, [Transition.wake])
        else (ms, st, [])
      else
        if !load_state st.stateFile then
          (ms, (sleep_logic env.sleepEnvSoft st false).1,
           [Transition.sleepSoft])
        else (ms, st, [])
    else (ms, st, [])
  else (ms, st, [])

/-- Sleep-enforcement block of one monitor_loop tick, daemon.rs lines 111
to 141: when the persisted state reads on and the GPU is present in power
state D0 or Unknown, invoke a forced sleep. This block runs on every
tick, in every mode. -/
def monitor_enforcement (gpuPower : Option String) (senv : SleepEnv)
    (st : DaemonState) : DaemonState × List Transition :=
  let should_sleep := load_state st.stateFile &&
    (match gpuPower with
     | some state => state == "D0" || state == "Unknown"
     | none => false)
  if should_sleep then
    ((sleep_logic senv st true).1, [Transition.sleepForce])
  else (st, [])

/-- One full monitor_loop tick, daemon.rs lines 68 to 142: the auto block
followed by the enforcement block. -/
def monitor_tick (env : MonitorEnv) (now : Nat) (ms : MonitorState)
    (st : DaemonState) : MonitorState × DaemonState × List Transition :=
  let r1 := monitor_auto_block env now ms st
  let r2 := monitor_enforcement env.gpuPower env.sleepEnvForce r1.2.1
  (r1.1, r2.1, r1.2.2 ++ r2.2)

/-! ## Claims -/

/-- C6 counterexample: the claim says serialization produces the lowercase
tag, but the Display impl writes the capitalized variant name, so the
serialized form of Standard is "Standard" and not "standard". -/
theorem mode_serialization_not_lowercase :
    Mode.toString .Standard = "Standard" ∧ "Standard" ≠ "standard" :=
  ⟨rfl, by decide⟩

/-- C6 (amended): parsing the serialized form of every mode yields the mode
again; the mode a parse accepts is case-insensitive (two inputs with the
same lowercased form succeed with the same mode, while the error message of
a failed parse echoes the original input verbatim), and parsing accepts
the aliases std and off for Standard, int and on for Integrated, and auto
and opt for Optimized; serialization produces the capitalized tag. -/
theorem mode_roundtrip :
    (∀ m : Mode, Mode.from_str (Mode.toString m) = .ok m)
  ∧ (∀ s t : String, ∀ m : Mode, asciiLowercase s = asciiLowercase t →
      Mode.from_str s = .ok m → Mode.from_str t = .ok m)
  ∧ Mode.from_str "Foo" = .error "Unknown mode: Foo"
  ∧ Mode.toString .Standard = "Standard"
  ∧ Mode.toString .Integrated = "Integrated"
  ∧ Mode.toString .Optimized = "Optimized"
  ∧ Mode.from_str "std" = .ok .Standard
  ∧ Mode.from_str "off" = .ok .Standard
  ∧ Mode.from_str "int" = .ok .Integrated
  ∧ Mode.from_str "on" = .ok .Integrated
  ∧ Mode.from_str "auto" = .ok .Optimized
  ∧ Mode.from_str "opt" = .ok .Optimized := by
  refine ⟨?_, ?_, rfl, rfl, rfl, rfl, ?_, ?_, ?_, ?_, ?_, ?_⟩
  · intro m
    cases m <;> rfl
  · intro s t m h hok
    simp only [Mode.from_str] at hok ⊢
    rw [← h]
    split at hok <;> simp_all
  all_goals rfl

/-- C6 witness for the amended theorem: instantiated at Optimized and at
the concrete pair std and STD, whose lowercased forms agree. -/
theorem mode_roundtrip_witness :
    Mode.from_str (Mode.toString .Optimized) = .ok .Optimized
  ∧ Mode.from_str "STD" = .ok .Standard :=
  ⟨mode_roundtrip.1 .Optimized,
   mode_roundtrip.2.1 "std" "STD" .Standard (by decide) rfl⟩

/-- C7: get_charging_status reads the first existing candidate file (ACAD,
then AC, then ADP1) and returns true exactly when its trimmed content is
"1"; with no candidate present it returns true. -/
theorem charging_status_first_candidate (c : String) (a b : Option String) :
    get_charging_status ⟨some c, a, b⟩ = (strTrim c == "1")
  ∧ get_charging_status ⟨none, some c, b⟩ = (strTrim c == "1")
  ∧ get_charging_status ⟨none, none, some c⟩ = (strTrim c == "1")
  ∧ get_charging_status ⟨none, none, none⟩ = true :=
  ⟨rfl, rfl, rfl, rfl⟩

/-- C8 counterexample: stop_services never issues a stop for the suspend,
hibernate or resume units (it only disables them), so the claimed
stop-then-disable treatment of the five-unit list fails. -/
theorem stop_services_does_not_stop_suspend :
    SysCall.mk "stop" "nvidia-suspend" ∉ (stop_services fun _ => true).1
  ∧ SysCall.mk "stop" "nvidia-suspend.service" ∉
      (stop_services fun _ => true).1
  ∧ SysCall.mk "stop" "nvidia-hibernate.service" ∉
      (stop_services fun _ => true).1
  ∧ SysCall.mk "stop" "nvidia-resume.service" ∉
      (stop_services fun _ => true).1 := by
  refine ⟨?_, ?_, ?_, ?_⟩ <;> decide

/-- C8 (amended): stop_services stops nvidia-persistenced and
nvidia-powerd, disables the suspend, hibernate, resume, persistenced and
powerd units, then stops and masks nvidia-fallback.service; start_services
unmasks nvidia-fallback.service, starts persistenced and powerd and
enables the five units; for every exit-status assignment both return Ok,
and failures only add warning lines. -/
theorem services_call_sequences (status : SysCall → Bool) :
    (stop_services status).1 =
      [⟨"stop", "nvidia-persistenced"⟩, ⟨"stop", "nvidia-powerd"⟩,
       ⟨"disable", "nvidia-suspend.service"⟩,
       ⟨"disable", "nvidia-hibernate.service"⟩,
       ⟨"disable", "nvidia-resume.service"⟩,
       ⟨"disable", "nvidia-persistenced.service"⟩,
       ⟨"disable", "nvidia-powerd.service"⟩,
       ⟨"stop", "nvidia-fallback.service"⟩,
       ⟨"mask", "nvidia-fallback.service"⟩]
  ∧ (stop_services status).2.2 = .ok ()
  ∧ (start_services status).1 =
      [⟨"unmask", "nvidia-fallback.service"⟩,
       ⟨"start", "nvidia-persistenced"⟩, ⟨"start", "nvidia-powerd"⟩,
       ⟨"enable", "nvidia-suspend.service"⟩,
       ⟨"enable", "nvidia-hibernate.service"⟩,
       ⟨"enable", "nvidia-resume.service"⟩,
       ⟨"enable", "nvidia-persistenced.service"⟩,
       ⟨"enable", "nvidia-powerd.service"⟩]
  ∧ (start_services status).2.2 = .ok ()
  ∧ (stop_services fun _ => true).2.1 = []
  ∧ (stop_services fun _ => false).2.1.length = 9 := by
  refine ⟨?_, rfl, ?_, rfl, by decide, by decide⟩ <;>
    simp [stop_services, start_services, run_systemctl_all, run_systemctl]

/-- C5 counterexample: with no Nvidia GPU on the bus, sleep_logic returns
ok with the message "Nvidia GPU not found (already off?)", which is not
the exact message "Nvidia GPU not found" the claim states. -/
theorem sleep_no_gpu_message :
    sleep_logic ⟨none, .ok [], none, none, none, none⟩ ⟨.absent⟩ true =
      (⟨.absent⟩, [], (true, "Nvidia GPU not found (already off?)", []))
  ∧ "Nvidia GPU not found (already off?)" ≠ "Nvidia GPU not found" :=
  ⟨rfl, by decide⟩

/-- C5 (amended): when no Nvidia GPU is found, sleep_logic returns ok with
the message "Nvidia GPU not found (already off?)", performs no effect and
leaves the state unchanged, for either force value: sleeping an
already-asleep GPU is idempotent. -/
theorem sleep_no_gpu_idempotent (env : SleepEnv) (st : DaemonState)
    (kill_procs : Bool) (h : env.gpu = none) :
    sleep_logic env st kill_procs =
      (st, [], (true, "Nvidia GPU not found (already off?)", [])) := by
  obtain ⟨g, p, k, sv, so, u⟩ := env
  cases h
  rfl

/-- C5 witness: the amended theorem applied at a concrete environment with
no GPU, under both force values. -/
theorem sleep_no_gpu_idempotent_witness :
    sleep_logic ⟨none, .error "x", some "k", some "s", some "t", some "u"⟩
        ⟨.content "off"⟩ false =
      (⟨.content "off"⟩, [], (true, "Nvidia GPU not found (already off?)", []))
  ∧ sleep_logic ⟨none, .error "x", some "k", some "s", some "t", some "u"⟩
        ⟨.content "off"⟩ true =
      (⟨.content "off"⟩, [], (true, "Nvidia GPU not found (already off?)", [])) :=
  ⟨sleep_no_gpu_idempotent _ _ false rfl,
   sleep_no_gpu_idempotent _ _ true rfl⟩

/-- C10 counterexample: when the state file is absent, restore_logic
returns Ok having dispatched no transition at all, while the claim says the
non-sleep case applies wake. -/
theorem restore_absent_does_nothing :
    restore_logic FsFile.absent = .ok []
  ∧ restore_logic FsFile.absent ≠ .ok [RestoreAction.wake] :=
  ⟨rfl, by simp [restore_logic]⟩

/-- C10 (amended): load_state never fails and yields the sleep intent
exactly when the file reads with trimmed content "on", defaulting to awake
for any other content and for absent or unreadable files; the startup
restore applies force sleep exactly in the sleep case, wake for a readable
file with any other content, nothing when the file is absent, and
propagates the error of an unreadable file. -/
theorem load_state_restore_dispatch :
    (∀ s, load_state (.content s) = (strTrim s == "on"))
  ∧ load_state .absent = false
  ∧ (∀ e, load_state (.unreadable e) = false)
  ∧ (∀ s, restore_logic (.content s) =
      .ok (if strTrim s == "on" then [RestoreAction.sleepForce]
           else [RestoreAction.wake]))
  ∧ restore_logic .absent = .ok []
  ∧ (∀ e, restore_logic (.unreadable e) = .error e) := by
  refine ⟨fun s => rfl, rfl, fun e => rfl, fun s => ?_, rfl, fun e => rfl⟩
  simp only [restore_logic]
  split <;> simp_all

/-- C4: with a non-empty blocking-process set and force off, sleep_logic
returns ok false with message "Blocking processes found" together with the
list, performs no effect (in particular sends no kill signal), and leaves
the persisted state unchanged. -/
theorem sleep_soft_blocked (env : SleepEnv) (st : DaemonState) (g : Gpu)
    (l : List (String × String)) (hg : env.gpu = some g)
    (hp : env.procsResult = .ok l) (hl : l ≠ []) :
    sleep_logic env st false =
      (st, [], (false, "Blocking processes found", l)) := by
  obtain ⟨gpu, p, k, sv, so, u⟩ := env
  cases hg
  cases hp
  simp [sleep_logic, List.isEmpty_iff, hl]

/-- C4 witness: one chromium process holding a device node blocks a soft
sleep without any effect or state change. -/
theorem sleep_soft_blocked_witness :
    sleep_logic ⟨some ⟨"0000:01:00.0", ["/dev/dri/card1"], none, none⟩,
        .ok [("chromium", "4242")], none, none, none, none⟩
      ⟨.content "off"⟩ false =
      (⟨.content "off"⟩, [],
       (false, "Blocking processes found", [("chromium", "4242")])) :=
  sleep_soft_blocked _ _ _ _ rfl rfl (by simp)

/-- C9: wake_logic persists the awake intent as its first action, before
any slot write, rescan, module load or service start; when that write
fails it returns ok false having performed no effect, the state unchanged. -/
theorem wake_persists_first (env : WakeEnv) (st : DaemonState) :
    (∀ e, env.saveStateResult = some e →
      wake_logic env st = (st, [], (false, "Failed to save state: " ++ e)))
  ∧ (env.saveStateResult = none →
      ∃ rest, (wake_logic env st).2.1 = Effect.saveState false :: rest) := by
  obtain ⟨sv, slots, lm, ss⟩ := env
  constructor
  · intro e he
    cases he
    rfl
  · intro h
    cases h
    cases lm <;> cases ss <;> exact ⟨_, rfl⟩

/-- C9 witness: a denied state write aborts wake with no effect; a
successful one heads the effect trace. -/
theorem wake_persists_first_witness :
    wake_logic ⟨some "denied", [("0", some "0")], none, none⟩
        ⟨.content "on"⟩ =
      (⟨.content "on"⟩, [], (false, "Failed to save state: denied"))
  ∧ ∃ rest,
      (wake_logic ⟨none, [("0", some "0")], none, none⟩
        ⟨.content "on"⟩).2.1 = Effect.saveState false :: rest :=
  ⟨(wake_persists_first _ _).1 "denied" rfl,
   (wake_persists_first _ _).2 rfl⟩

/-- Dispatch of the enforcement block: it issues either nothing or a
single forced sleep, never a wake or soft sleep. Shared helper. -/
theorem monitor_enforcement_calls (gp : Option String) (senv : SleepEnv)
    (st : DaemonState) :
    (monitor_enforcement gp senv st).2 = [] ∨
    (monitor_enforcement gp senv st).2 = [Transition.sleepForce] := by
  simp only [monitor_enforcement]
  split
  · right; rfl
  · left; rfl

/-- Debounce of the auto block: with auto mode on, a changed charging
observation only records the value and resets the timestamp. Shared
helper. -/
theorem monitor_auto_block_changed (env : MonitorEnv) (now : Nat)
    (ms : MonitorState) (st : DaemonState)
    (ha : env.auto_enabled = true)
    (hne : env.current_charging ≠ ms.last_charging) :
    monitor_auto_block env now ms st =
      (⟨env.current_charging, now⟩, st, []) := by
  obtain ⟨ae, cc, ses, sef, we, gp⟩ := env
  obtain ⟨lc, ss⟩ := ms
  cases ha
  simp only at hne
  simp [monitor_auto_block, bne_iff_ne, hne]

/-- Stability precondition of the auto block: it dispatches a wake or a
soft sleep only when the observed charging value equals the remembered one
and has been stable for at least five seconds. Shared helper. -/
theorem monitor_auto_block_transitions (env : MonitorEnv) (now : Nat)
    (ms : MonitorState) (st : DaemonState)
    (h : Transition.wake ∈ (monitor_auto_block env now ms st).2.2 ∨
      Transition.sleepSoft ∈ (monitor_auto_block env now ms st).2.2) :
    env.current_charging = ms.last_charging ∧
      5 ≤ now - ms.stable_since := by
  obtain ⟨ae, cc, ses, sef, we, gp⟩ := env
  obtain ⟨lc, ss⟩ := ms
  simp only at h ⊢
  cases ae with
  | false => simp [monitor_auto_block] at h
  | true =>
    by_cases hc : cc = lc
    · subst hc
      by_cases h5 : 5 ≤ now - ss
      · exact ⟨rfl, h5⟩
      · simp [monitor_auto_block, h5] at h
    · simp [monitor_auto_block, bne_iff_ne, hc] at h

/-- C3 counterexample: on a tick where the observed charging value just
changed (previous false, current true, auto mode on) and the persisted
state reads on with the GPU observed in D0 — reachable when an earlier
sleep persisted the intent and then failed at slot power-off — the
reconciler still issues a forced-sleep transition that very tick through
its enforcement block, with zero seconds of stability. -/
theorem monitor_changed_tick_issues_transition :
    (true : Bool) ≠ false
  ∧ (monitor_tick ⟨true, true, ⟨none, .ok [], none, none, none, none⟩,
      ⟨some ⟨"0000:01:00.0", [], none, none⟩, .ok [], none, none, none,
       none⟩, ⟨none, [], none, none⟩, some "D0"⟩ 0 ⟨false, 0⟩
      ⟨.content "on"⟩).2.2 = [Transition.sleepForce] :=
  ⟨by decide, by decide⟩

/-- C3 (amended): in auto mode, on any tick where the observed charging
value differs from the remembered one, the auto block only records the new
value and resets the stability timestamp, and the tick dispatches neither
Wake nor soft Sleep — though the independent enforcement block may still
force a sleep that tick; and the tick dispatches Wake or soft Sleep only
when the observed value equals the remembered one and has been stable for
at least 2 seconds (the code threshold is 5 seconds, which entails the
claimed bound). -/
theorem monitor_tick_auto_debounce (env : MonitorEnv) (now : Nat)
    (ms : MonitorState) (st : DaemonState) :
    (env.auto_enabled = true → env.current_charging ≠ ms.last_charging →
      (monitor_tick env now ms st).1 = ⟨env.current_charging, now⟩ ∧
      Transition.wake ∉ (monitor_tick env now ms st).2.2 ∧
      Transition.sleepSoft ∉ (monitor_tick env now ms st).2.2)
  ∧ (Transition.wake ∈ (monitor_tick env now ms st).2.2 ∨
      Transition.sleepSoft ∈ (monitor_tick env now ms st).2.2 →
      env.current_charging = ms.last_charging ∧
        2 ≤ now - ms.stable_since) := by
  constructor
  · intro ha hne
    have h1 := monitor_auto_block_changed env now ms st ha hne
    have h2 := monitor_enforcement_calls env.gpuPower env.sleepEnvForce st
    simp only [monitor_tick, h1]
    rcases h2 with h2 | h2 <;> simp [h2]
  · intro h
    have h2 := monitor_enforcement_calls env.gpuPower env.sleepEnvForce
      (monitor_auto_block env now ms st).2.1
    have hauto : Transition.wake ∈ (monitor_auto_block env now ms st).2.2 ∨
        Transition.sleepSoft ∈ (monitor_auto_block env now ms st).2.2 := by
      simp only [monitor_tick, List.mem_append] at h
      rcases h2 with h2 | h2 <;> rw [h2] at h <;> simp_all
    have hres := monitor_auto_block_transitions env now ms st hauto
    exact ⟨hres.1, by omega⟩

/-- C3 witness for the amended theorem: a changed tick with no GPU
observed debounces and dispatches nothing, and a stable plugged-in tick
with sleep enabled dispatches Wake after nine seconds of stability. -/
theorem monitor_tick_auto_debounce_witness :
    ((monitor_tick ⟨true, true, ⟨none, .ok [], none, none, none, none⟩,
        ⟨none, .ok [], none, none, none, none⟩, ⟨none, [], none, none⟩,
        none⟩ 7 ⟨false, 3⟩ ⟨.content "off"⟩).1 = ⟨true, 7⟩ ∧
      Transition.wake ∉ (monitor_tick ⟨true, true,
        ⟨none, .ok [], none, none, none, none⟩,
        ⟨none, .ok [], none, none, none, none⟩, ⟨none, [], none, none⟩,
        none⟩ 7 ⟨false, 3⟩ ⟨.content "off"⟩).2.2 ∧
      Transition.sleepSoft ∉ (monitor_tick ⟨true, true,
        ⟨none, .ok [], none, none, none, none⟩,
        ⟨none, .ok [], none, none, none, none⟩, ⟨none, [], none, none⟩,
        none⟩ 7 ⟨false, 3⟩ ⟨.content "off"⟩).2.2)
  ∧ (true = true ∧ 2 ≤ 9 - 0) :=
  ⟨(monitor_tick_auto_debounce _ 7 ⟨false, 3⟩ ⟨.content "off"⟩).1 rfl
      (by decide),
   (monitor_tick_auto_debounce ⟨true, true,
        ⟨none, .ok [], none, none, none, none⟩,
        ⟨none, .ok [], none, none, none, none⟩, ⟨none, [], none, none⟩,
        none⟩ 9 ⟨true, 0⟩ ⟨.content "on"⟩).2 (by decide)⟩

/-- C1: sleep_logic performs its steps in the fixed order stop-services,
unload-modules, unbind-driver, slot-power-off (its engine steps always
form a prefix of that sequence), and whenever a step returns an error it
returns ok false with the message naming that step, executing none of the
remaining steps. -/
theorem sleep_engine_step_order (env : SleepEnv) (st : DaemonState)
    (kill_procs : Bool) :
    ((sleep_logic env st kill_procs).2.1.filter isEngineStep) <+:
      [Effect.stopServices, .unloadModules, .unbindDriver,
       .setSlotPower false]
  ∧ (∀ e, env.stopServicesResult = some e →
      Effect.stopServices ∈ (sleep_logic env st kill_procs).2.1 →
      (sleep_logic env st kill_procs).2.2 =
        (false, "Failed to stop services: " ++ e, []) ∧
      (sleep_logic env st kill_procs).2.1.filter isEngineStep =
        [Effect.stopServices])
  ∧ (∀ e, env.unloadResult = some e →
      Effect.unloadModules ∈ (sleep_logic env st kill_procs).2.1 →
      (sleep_logic env st kill_procs).2.2 =
        (false, "Failed to unload modules: " ++ e, []) ∧
      (sleep_logic env st kill_procs).2.1.filter isEngineStep =
        [Effect.stopServices, Effect.unloadModules])
  ∧ (∀ g, env.gpu = some g → ∀ e, g.unbindResult = some e →
      Effect.unbindDriver ∈ (sleep_logic env st kill_procs).2.1 →
      (sleep_logic env st kill_procs).2.2 =
        (false, "Failed to unbind driver: " ++ e, []) ∧
      (sleep_logic env st kill_procs).2.1.filter isEngineStep =
        [Effect.stopServices, Effect.unloadModules, Effect.unbindDriver])
  ∧ (∀ g, env.gpu = some g → ∀ e, g.slotPowerOffResult = some e →
      Effect.setSlotPower false ∈ (sleep_logic env st kill_procs).2.1 →
      (sleep_logic env st kill_procs).2.2 =
        (false, "Failed to power off slot: " ++ e, []) ∧
      (sleep_logic env st kill_procs).2.1.filter isEngineStep =
        [Effect.stopServices, Effect.unloadModules, Effect.unbindDriver,
         Effect.setSlotPower false]) := by
  obtain ⟨gpu, p, k, sv, so, u⟩ := env
  rcases gpu with _ | ⟨ad, nd, ub, sp⟩
  · simp [sleep_logic, isEngineStep, List.nil_prefix]
  · rcases p with pe | (_ | ⟨hd, tl⟩)
    · simp [sleep_logic, isEngineStep, List.nil_prefix]
    · rcases sv with _ | sve <;> rcases so with _ | soe <;>
        rcases u with _ | ue <;> rcases ub with _ | ube <;>
        rcases sp with _ | spe <;>
        simp [sleep_logic, sleep_steps, save_state, isEngineStep,
          List.cons_prefix_cons, List.nil_prefix]
    · cases kill_procs
      · simp [sleep_logic, isEngineStep, List.nil_prefix]
      · rcases k with _ | ke
        · rcases sv with _ | sve <;> rcases so with _ | soe <;>
            rcases u with _ | ue <;> rcases ub with _ | ube <;>
            rcases sp with _ | spe <;>
            simp [sleep_logic, sleep_steps, save_state, isEngineStep,
              List.cons_prefix_cons, List.nil_prefix]
        · simp [sleep_logic, isEngineStep, List.nil_prefix]

/-- C1 witness: with the stop-services step failing, sleep_logic aborts at
that step with its message and no later step in the trace. -/
theorem sleep_engine_step_order_witness :
    (sleep_logic ⟨some ⟨"0000:01:00.0", [], none, none⟩, .ok [], none,
        none, some "boom", none⟩ ⟨.content "off"⟩ true).2.2 =
      (false, "Failed to stop services: boom", [])
  ∧ (sleep_logic ⟨some ⟨"0000:01:00.0", [], none, none⟩, .ok [], none,
        none, some "boom", none⟩ ⟨.content "off"⟩ true).2.1.filter
      isEngineStep = [Effect.stopServices] :=
  (sleep_engine_step_order _ _ _).2.1 "boom" rfl (by decide)

/-- Trace shape of sleep_logic: guard effects come first, the persist and
shutdown steps follow in their fixed order, and the persisted state moves
to the sleep content exactly when the persist effect occurred. Shared
helper for the persistence-ordering theorems. -/
theorem sleep_logic_trace_shape (env : SleepEnv) (st : DaemonState)
    (kill_procs : Bool) :
    (sleep_logic env st kill_procs).2.1 =
      (sleep_logic env st kill_procs).2.1.filter isGuardEffect ++
      (sleep_logic env st kill_procs).2.1.filter (fun e => !isGuardEffect e)
  ∧ ((sleep_logic env st kill_procs).2.1.filter isPersistOrStep) <+:
      [Effect.saveState true, .stopServices, .unloadModules,
       .unbindDriver, .setSlotPower false]
  ∧ (Effect.saveState true ∉ (sleep_logic env st kill_procs).2.1 →
      (sleep_logic env st kill_procs).1 = st)
  ∧ (Effect.saveState true ∈ (sleep_logic env st kill_procs).2.1 →
      (sleep_logic env st kill_procs).1 = ⟨.content "on"⟩) := by
  obtain ⟨gpu, p, k, sv, so, u⟩ := env
  rcases gpu with _ | ⟨ad, nd, ub, sp⟩
  · simp [sleep_logic, isGuardEffect, isPersistOrStep, isEngineStep,
      List.nil_prefix]
  · rcases p with pe | (_ | ⟨hd, tl⟩)
    · simp [sleep_logic, isGuardEffect, isPersistOrStep, isEngineStep,
        List.nil_prefix]
    · rcases sv with _ | sve <;> rcases so with _ | soe <;>
        rcases u with _ | ue <;> rcases ub with _ | ube <;>
        rcases sp with _ | spe <;>
        simp [sleep_logic, sleep_steps, save_state, isGuardEffect,
          isPersistOrStep, isEngineStep, List.cons_prefix_cons,
          List.nil_prefix]
    · cases kill_procs
      · simp [sleep_logic, isGuardEffect, isPersistOrStep, isEngineStep,
          List.nil_prefix]
      · rcases k with _ | ke
        · rcases sv with _ | sve <;> rcases so with _ | soe <;>
            rcases u with _ | ue <;> rcases ub with _ | ube <;>
            rcases sp with _ | spe <;>
            simp [sleep_logic, sleep_steps, save_state, isGuardEffect,
              isPersistOrStep, isEngineStep, List.cons_prefix_cons,
              List.nil_prefix]
        · simp [sleep_logic, isGuardEffect, isPersistOrStep, isEngineStep,
            List.nil_prefix]

/-- C2 counterexample: a soft sleep blocked by a process returns ok false
with the persisted file untouched, still holding the awake content, so
after the call the persisted state does not equal the requested sleep
intent and no persistence preceded the return. -/
theorem sleep_blocked_not_persisted :
    sleep_logic ⟨some ⟨"0000:01:00.0", ["/dev/dri/card0"], none, none⟩,
        .ok [("firefox", "1234")], none, none, none, none⟩
      ⟨.content "off"⟩ false =
      (⟨.content "off"⟩, [],
       (false, "Blocking processes found", [("firefox", "1234")]))
  ∧ FsFile.content "off" ≠ FsFile.content "on" :=
  ⟨rfl, by decide⟩

/-- C2 (amended): wake_logic persists the awake intent before any other
effect and sleep_logic persists the sleep intent after its process guard
but before every shutdown step; the persisted state becomes the requested
content exactly when that persist effect happened, and a return without it
(soft-blocked, guard failure, or persist failure) leaves the persisted
state unchanged. -/
theorem persist_precedes_transition (env : SleepEnv) (wenv : WakeEnv)
    (st : DaemonState) (kill_procs : Bool) :
    ((wake_logic wenv st).2.1 = [] ∨
      ∃ rest, (wake_logic wenv st).2.1 = Effect.saveState false :: rest)
  ∧ ((wake_logic wenv st).2.1 = [] → (wake_logic wenv st).1 = st)
  ∧ ((wake_logic wenv st).2.1 ≠ [] →
      (wake_logic wenv st).1 = ⟨.content "off"⟩)
  ∧ (sleep_logic env st kill_procs).2.1 =
      (sleep_logic env st kill_procs).2.1.filter isGuardEffect ++
      (sleep_logic env st kill_procs).2.1.filter (fun e => !isGuardEffect e)
  ∧ ((sleep_logic env st kill_procs).2.1.filter isPersistOrStep) <+:
      [Effect.saveState true, .stopServices, .unloadModules,
       .unbindDriver, .setSlotPower false]
  ∧ (Effect.saveState true ∉ (sleep_logic env st kill_procs).2.1 →
      (sleep_logic env st kill_procs).1 = st)
  ∧ (Effect.saveState true ∈ (sleep_logic env st kill_procs).2.1 →
      (sleep_logic env st kill_procs).1 = ⟨.content "on"⟩) := by
  obtain ⟨wsv, wslots, wlm, wss⟩ := wenv
  refine ⟨?_, ?_, ?_, (sleep_logic_trace_shape env st kill_procs).1,
    (sleep_logic_trace_shape env st kill_procs).2.1,
    (sleep_logic_trace_shape env st kill_procs).2.2.1,
    (sleep_logic_trace_shape env st kill_procs).2.2.2⟩
  · rcases wsv with _ | we
    · right
      cases wlm <;> cases wss <;> exact ⟨_, rfl⟩
    · left; rfl
  · intro h
    rcases wsv with _ | we
    · exfalso
      cases wlm <;> cases wss <;> simp [wake_logic, save_state] at h
    · rfl
  · intro h
    rcases wsv with _ | we
    · cases wlm <;> cases wss <;> rfl
    · exact absurd rfl h

/-- C2 witness for the amended theorem: a blocked soft sleep has no
persist effect in its trace and leaves the state unchanged, and a wake
with a working state write puts the persist at the head of its trace. -/
theorem persist_precedes_transition_witness :
    (sleep_logic ⟨some ⟨"0000:01:00.0", ["/dev/dri/card0"], none, none⟩,
        .ok [("firefox", "1234")], none, none, none, none⟩
      ⟨.content "off"⟩ false).1 = ⟨.content "off"⟩
  ∧ ((wake_logic ⟨none, [], none, none⟩ ⟨.content "on"⟩).2.1 = [] ∨
      ∃ rest, (wake_logic ⟨none, [], none, none⟩ ⟨.content "on"⟩).2.1 =
        Effect.saveState false :: rest) :=
  ⟨(persist_precedes_transition _ ⟨none, [], none, none⟩ _ false).2.2.2.2.2.1
      (by decide),
   (persist_precedes_transition ⟨some ⟨"0000:01:00.0", ["/dev/dri/card0"],
        none, none⟩, .ok [("firefox", "1234")], none, none, none, none⟩ _
      ⟨.content "on"⟩ false).1⟩

end NvSleepify
